/-
Verification of the yt-api-wrapper repository's natural-language specification
against its source code.

The development shallowly embeds the Python sources:
  * src/youtube-core/youtube.py        (synchronous robust client)
  * src/yt_api_wrapper/async_yt_api_wrapper.py (asynchronous robust client)
  * src/yt_api_wrapper/models.py       (structured error type)
  * src/yt_api_wrapper/parser.py       (HTML extraction parser)

Python dictionaries become insertion-ordered association lists, Python values
become the inductive `PyVal`, HTTP transports become oracles `Nat → Attempt`
mapping the attempt index to the attempt's outcome, and CPython exception
semantics relevant to the sources (raising / catching a class that does not
derive from `BaseException` raises `TypeError`) are embedded explicitly.
-/
import Mathlib

set_option autoImplicit false
set_option maxRecDepth 8192

namespace YtApi

/-! ## Structured error model (models.py / youtube.py lines 14-19)

Both modules define the same three-field dataclass.  Crucially,
`yt_api_wrapper/models.py` declares `class YouTubeError(Exception)` while
`youtube-core/youtube.py` declares a plain `@dataclass class YouTubeError:`
with no base class; the value shape is identical, but only the former may be
raised/caught as an exception in CPython. -/

structure YouTubeError where
  error_type : String
  message : String
  details : Option String := Option.none
deriving Repr, DecidableEq

/-- youtube.py line 14: the synchronous module's `YouTubeError` has no
`Exception` base class, so CPython refuses to raise or catch it. -/
def syncYouTubeErrorDerivesException : Bool := false

/-- models.py line 6: the shared module's `YouTubeError` derives `Exception`. -/
def asyncYouTubeErrorDerivesException : Bool := true

/-- CPython's message when a `raise` statement is given an instance of a class
not deriving `BaseException`. -/
def raiseNonExceptionMsg : String := "exceptions must derive from BaseException"

/-- CPython's message when an `except` clause names a class not deriving
`BaseException`. -/
def catchNonExceptionMsg : String :=
  "catching classes that do not inherit from BaseException is not allowed"

/-! ## Python value model -/

/-- Model of the Python values the clients manipulate: strings, ints, lists,
(string-keyed, insertion-ordered) dicts, and `None`. -/
inductive PyVal where
  | str : String → PyVal
  | int : Int → PyVal
  | list : List PyVal → PyVal
  | dict : List (String × PyVal) → PyVal
  | none : PyVal

abbrev PyDict := List (String × PyVal)

/-- `d.get(k)`: first binding of `k`, or absent. -/
def dictGet (d : PyDict) (k : String) : Option PyVal :=
  match d with
  | [] => Option.none
  | (k1, v) :: rest => if k1 = k then some v else dictGet rest k

/-- `d[k] = v`: overwrite in place if the key exists (Python dicts keep the
original insertion position), otherwise append. -/
def dictSet (d : PyDict) (k : String) (v : PyVal) : PyDict :=
  match d with
  | [] => [(k, v)]
  | (k1, v1) :: rest => if k1 = k then (k1, v) :: rest else (k1, v1) :: dictSet rest k v

/-- `del d[k]`. -/
def dictDel (d : PyDict) (k : String) : PyDict :=
  d.filter (fun p => !(p.1 = k))

/-- Python truthiness of the modelled values. -/
def pyTruthy : PyVal → Bool
  | PyVal.str s => !s.isEmpty
  | PyVal.int n => !(n = 0)
  | PyVal.list l => !l.isEmpty
  | PyVal.dict d => !d.isEmpty
  | PyVal.none => false

/-- `len(v)`: defined for strings/lists/dicts; `TypeError` (absent) on ints
and `None`. -/
def pyLen : PyVal → Option Nat
  | PyVal.str s => some s.length
  | PyVal.list l => some l.length
  | PyVal.dict d => some d.length
  | PyVal.int _ => Option.none
  | PyVal.none => Option.none

/-- `v[i]` for a non-negative index: list element, one-character string, or a
lookup failure (`KeyError`/`TypeError`) modelled as absent. -/
def pyIndex : PyVal → Nat → Option PyVal
  | PyVal.list l, i => l.get? i
  | PyVal.str s, i => (s.toList.get? i).map (fun c => PyVal.str (String.mk [c]))
  | _, _ => Option.none

/-! ## Python string helpers -/

/-- The whitespace characters stripped by `str.strip()` / matched by regex
`\s` in the character ranges exercised by this repository (ASCII and Latin-1;
the clients only ever strip user-supplied query/ID strings). -/
def isPySpace (c : Char) : Bool :=
  c = ' ' || c = '\t' || c = '\n' || c = '\r' || c = '\x0b' || c = '\x0c' ||
  c = '\x1c' || c = '\x1d' || c = '\x1e' || c = '\x1f' || c = '\x85'

/-- `s.strip()` on the character list. -/
def pyStripList (cs : List Char) : List Char :=
  ((cs.dropWhile isPySpace).reverse.dropWhile isPySpace).reverse

/-- `s.strip()`. -/
def pyStrip (s : String) : String :=
  String.mk (pyStripList s.toList)

/-- `s.find(c)`: index of the first occurrence, or absent (Python returns -1;
the call sites only test for -1). -/
def pyFindIdx (c : Char) : List Char → Option Nat
  | [] => Option.none
  | x :: rest => if x = c then some 0 else (pyFindIdx c rest).map (fun i => i + 1)

/-- `s.rfind(c)`: index of the last occurrence, or absent. -/
def pyRFindIdx (c : Char) (cs : List Char) : Option Nat :=
  (pyFindIdx c cs.reverse).map (fun i => cs.length - 1 - i)

/-- `s[a:b]` for non-negative bounds: empty when `b ≤ a`, as in Python. -/
def pySlice (cs : List Char) (a b : Nat) : List Char :=
  (cs.drop a).take (b - a)

/-! ## `int(str)` (used by the record builder's numeric coercion)

Python's `int` on a string strips surrounding whitespace, accepts an optional
sign, and accepts single underscores between digits. -/

/-- Digits with optional single underscores strictly between digits. -/
def parseDigitsU : List Char → Option Nat
  | [] => Option.none
  | c :: rest =>
    if c.isDigit then parseDigitsUGo rest (c.toNat - 48) else Option.none
where
  parseDigitsUGo : List Char → Nat → Option Nat
    | [], acc => some acc
    | '_' :: c :: rest, acc =>
      if c.isDigit then parseDigitsUGo rest (acc * 10 + (c.toNat - 48)) else Option.none
    | ['_'], _ => Option.none
    | c :: rest, acc =>
      if c.isDigit then parseDigitsUGo rest (acc * 10 + (c.toNat - 48)) else Option.none

/-- `int(s)` for a Python string: integer value, or absent on `ValueError`. -/
def pyInt (s : String) : Option Int :=
  match pyStripList s.toList with
  | '-' :: rest => (parseDigitsU rest).map (fun n => -(n : Int))
  | '+' :: rest => (parseDigitsU rest).map (fun n => (n : Int))
  | cs => (parseDigitsU cs).map (fun n => (n : Int))

/-! ## Input validation (youtube.py lines 109-152; identically re-exported to
the async client as the shared utilities module)

The validators are modelled as the structured error they construct on
failure (`none` = validation passed).  How a constructed error actually
reaches the caller (raise vs TypeError) is modelled separately at the
call sites. -/

/-- youtube.py `_validate_query`. -/
def validate_query (query : String) : Option YouTubeError :=
  if query.toList.isEmpty || (pyStrip query).toList.isEmpty then
    some { error_type := "INVALID_INPUT", message := "Query cannot be empty" }
  else if 200 < query.length then
    some { error_type := "INVALID_INPUT", message := "Query too long (max 200 characters)" }
  else Option.none

/-- The character class of regex `[a-zA-Z0-9_-]`. -/
def isAllowedIdChar (c : Char) : Bool :=
  ('a' ≤ c && c ≤ 'z') || ('A' ≤ c && c ≤ 'Z') || ('0' ≤ c && c ≤ '9') ||
  c = '_' || c = '-'

/-- `re.match(r'^[a-zA-Z0-9_-]{11}$', s)` as a Boolean.  (After `strip()` the
argument never ends in a newline, so `$` coincides with end-of-string.) -/
def matchesVideoIdPattern (s : String) : Bool :=
  s.length = 11 && s.toList.all isAllowedIdChar

/-- youtube.py `_validate_video_id`: note that the regex is applied to
`video_id.strip()`, not to `video_id` itself. -/
def validate_video_id (video_id : String) : Option YouTubeError :=
  if video_id.toList.isEmpty || (pyStrip video_id).toList.isEmpty then
    some { error_type := "INVALID_INPUT", message := "Video ID cannot be empty" }
  else if !matchesVideoIdPattern (pyStrip video_id) then
    some { error_type := "INVALID_INPUT", message := "Invalid YouTube video ID format" }
  else Option.none

/-! ## Transport model and request execution with retry

`_make_request` (youtube.py lines 58-107, async_yt_api_wrapper.py lines
53-98).  The transport is an oracle mapping the attempt index to either a
received response or a transport exception (modelled by its text).  The
embedding returns:
  * the result — either the accepted response or the `YouTubeError`
    constructed at the failure site (how that construction reaches the
    caller, raise vs `TypeError`, is applied at the call sites);
  * the total number of HTTP attempts made;
  * the list of backoff waits performed, in order, in time-units. -/

structure Resp where
  status : Nat
  text : String
deriving Repr, DecidableEq

inductive Attempt where
  | resp : Resp → Attempt
  | exc : String → Attempt
deriving Repr, DecidableEq

/-- `requests.Response.ok`: true exactly when the status code is below 400. -/
def respOkSync (status : Nat) : Bool := status < 400

/-- The async client's acceptance test (line 73): status equal to 200. -/
def respOkAsync (status : Nat) : Bool := status = 200

/-- The HTTP_ERROR constructed at youtube.py lines 90-94. -/
def httpStatusError (r : Resp) : YouTubeError :=
  { error_type := "HTTP_ERROR"
    message := "HTTP " ++ toString r.status
    details := some (String.mk (r.text.toList.take 200)) }

/-- The REQUEST_FAILED constructed at youtube.py lines 103-107 /
async lines 94-98, with `str(last_exception)` as detail. -/
def requestFailedError (detail : String) : YouTubeError :=
  { error_type := "REQUEST_FAILED"
    message := "Request failed after all retries"
    details := some detail }

/-- The synchronous retry loop (youtube.py lines 74-107).  `attempt` is the
0-indexed attempt number; `remaining` is `max_retries - attempt`, so the test
`attempt < max_retries` is `remaining ≠ 0`.  On a response the loop returns it
when `response.ok`, otherwise retries after waiting `retry_delay * 2^attempt`,
or constructs HTTP_ERROR on the final attempt; a transport exception retries
likewise and REQUEST_FAILED is constructed after the loop with the last
exception's text. -/
def mrLoopSync (oracle : Nat → Attempt) (d : ℚ) :
    Nat → Nat → Except YouTubeError Resp × Nat × List ℚ
  | attempt, 0 =>
    match oracle attempt with
    | Attempt.resp r =>
      if respOkSync r.status then (Except.ok r, attempt + 1, [])
      else (Except.error (httpStatusError r), attempt + 1, [])
    | Attempt.exc e => (Except.error (requestFailedError e), attempt + 1, [])
  | attempt, remaining + 1 =>
    match oracle attempt with
    | Attempt.resp r =>
      if respOkSync r.status then (Except.ok r, attempt + 1, [])
      else
        let rest := mrLoopSync oracle d (attempt + 1) remaining
        (rest.1, rest.2.1, d * 2 ^ attempt :: rest.2.2)
    | Attempt.exc _ =>
      let rest := mrLoopSync oracle d (attempt + 1) remaining
      (rest.1, rest.2.1, d * 2 ^ attempt :: rest.2.2)

/-- youtube.py `_make_request` with `max_retries = m`, `retry_delay = d`. -/
def make_request_sync (m : Nat) (d : ℚ) (oracle : Nat → Attempt) :
    Except YouTubeError Resp × Nat × List ℚ :=
  mrLoopSync oracle d 0 m

/-- The asynchronous retry loop (async_yt_api_wrapper.py lines 69-98).  Two
deliberate differences from the synchronous loop are embedded:
  * acceptance is `status == 200` (line 73), not `response.ok`;
  * the `raise YouTubeError(HTTP_ERROR, ...)` on the final attempt (line 81)
    sits inside `try ... except Exception` (line 87), so it is caught by the
    loop's own catch-all, stored as `last_exception`, and the routine instead
    raises REQUEST_FAILED after the loop with detail
    `str(last_exception)` — which is `""` because the dataclass `__init__`
    never populates `Exception.args`. -/
def mrLoopAsync (oracle : Nat → Attempt) (d : ℚ) :
    Nat → Nat → Except YouTubeError Resp × Nat × List ℚ
  | attempt, 0 =>
    match oracle attempt with
    | Attempt.resp r =>
      if respOkAsync r.status then (Except.ok r, attempt + 1, [])
      else (Except.error (requestFailedError ""), attempt + 1, [])
    | Attempt.exc e => (Except.error (requestFailedError e), attempt + 1, [])
  | attempt, remaining + 1 =>
    match oracle attempt with
    | Attempt.resp r =>
      if respOkAsync r.status then (Except.ok r, attempt + 1, [])
      else
        let rest := mrLoopAsync oracle d (attempt + 1) remaining
        (rest.1, rest.2.1, d * 2 ^ attempt :: rest.2.2)
    | Attempt.exc _ =>
      let rest := mrLoopAsync oracle d (attempt + 1) remaining
      (rest.1, rest.2.1, d * 2 ^ attempt :: rest.2.2)

/-- async_yt_api_wrapper.py `_make_request`. -/
def make_request_async (m : Nat) (d : ℚ) (oracle : Nat → Attempt) :
    Except YouTubeError Resp × Nat × List ℚ :=
  mrLoopAsync oracle d 0 m

/-- The backoff waits a run performs starting at attempt `a` with `n` waits:
`d * 2^a, d * 2^(a+1), ...`. -/
def backoffWaits (d : ℚ) : Nat → Nat → List ℚ
  | _, 0 => []
  | a, n + 1 => d * 2 ^ a :: backoffWaits d (a + 1) n

/-! ## HTML extraction parser (parser.py)

`_extract_player_response` applies, in order, the two regular expressions
  `ytInitialPlayerResponse\s*=\s*({.+?});`
  `ytInitialPlayerResponse":\s*({.+?}),`
with DOTALL, via `re.search`.  Both have the rigid shape
  LITERAL  \s*  (for the first pattern: `=` then \s*)  `{`  `.+?`  `}`  TERM
with no backtracking ambiguity (`=` and `{` are not whitespace), so the
search is embedded directly: try every start position left to right; at each,
match the literal, skip whitespace, and close the capture at the earliest
`}` followed by the terminator that leaves a non-empty group body. -/

/-- Match a literal at the head of `text`, returning the rest. -/
def matchLit : List Char → List Char → Option (List Char)
  | [], text => some text
  | _ :: _, [] => Option.none
  | p :: ps, c :: cs => if p = c then matchLit ps cs else Option.none

/-- Index (into `cs`, the characters after the opening brace) of the earliest
`}` that is immediately followed by `term`. -/
def findClose (term : Char) : List Char → Option Nat
  | [] => Option.none
  | ['}'] => Option.none
  | '}' :: t :: rest =>
    if t = term then some 0 else (findClose term (t :: rest)).map (fun i => i + 1)
  | _ :: rest => (findClose term rest).map (fun i => i + 1)

/-- Match `\s*({.+?})TERM` at the head of `cs`, returning the capture group
`{...}`.  `.+?` is non-greedy with a non-empty body, so the closing brace is
the earliest one at index ≥ 1 followed by the terminator. -/
def matchBody (term : Char) (cs : List Char) : Option (List Char) :=
  match cs.dropWhile isPySpace with
  | '{' :: rest =>
    match findClose term (rest.drop 1) with
    | some k => some ('{' :: rest.take (k + 2))
    | Option.none => Option.none
  | _ => Option.none

/-- Pattern `GLOB\s*=\s*({.+?});` anchored at the head of `suffix`. -/
def tryMatchAssign (glob : List Char) (suffix : List Char) : Option (List Char) :=
  match matchLit glob suffix with
  | Option.none => Option.none
  | some r1 =>
    match r1.dropWhile isPySpace with
    | '=' :: r2 => matchBody ';' r2
    | _ => Option.none

/-- Pattern `GLOB":\s*({.+?}),` anchored at the head of `suffix`. -/
def tryMatchQuoted (glob : List Char) (suffix : List Char) : Option (List Char) :=
  match matchLit (glob ++ ['"', ':']) suffix with
  | Option.none => Option.none
  | some r1 => matchBody ',' r1

/-- `re.search`: the match at the leftmost start position that succeeds. -/
def reSearch (tryAt : List Char → Option (List Char)) : List Char → Option (List Char)
  | [] => tryAt []
  | text@(_ :: rest) =>
    match tryAt text with
    | some cap => some cap
    | Option.none => reSearch tryAt rest

/-- The shared two-pattern search strategy: the first pattern over the whole
text, then, only if it nowhere matches, the second. -/
def extractTwoPattern (glob : String) (text : List Char) : Option (List Char) :=
  match reSearch (tryMatchAssign glob.toList) text with
  | some cap => some cap
  | Option.none => reSearch (tryMatchQuoted glob.toList) text

/-- parser.py `_extract_player_response` (also youtube.py lines 294-314,
which duplicates it verbatim). -/
def extract_player_response (html : String) : Option String :=
  (extractTwoPattern "ytInitialPlayerResponse" html.toList).map (fun cs => String.mk cs)

/-- Modelled from the spec: `_extract_initial_data` is imported by the async
client from the parser module (async_yt_api_wrapper.py line 10) but its
definition is not among the provided sources.  Spec section 4.2: "same search
strategy applied against YouTube's channel-page initial-data global,
returning an absent result if not found."  The channel-page initial-data
global is `ytInitialData`. -/
def extract_initial_data (html : String) : Option String :=
  (extractTwoPattern "ytInitialData" html.toList).map (fun cs => String.mk cs)

/-- Occurrences of a literal marker: the text split at each occurrence of the
marker, keeping the fragments that follow a marker occurrence. -/
def markerFragments (marker : List Char) : List Char → List (List Char)
  | [] => []
  | text@(_ :: rest) =>
    match matchLit marker text with
    | some after => after :: markerFragments marker rest
    | Option.none => markerFragments marker rest

/-- Modelled from the spec: `_extract_search_results` is imported by the async
client from the parser module (async_yt_api_wrapper.py line 10) but its
definition is not among the provided sources.  Spec section 4.2: "parses a
search-results page's embedded structure into a sequence of Search Result
Entry-shaped raw dictionaries; returns an empty sequence if no results
section is found."  The embedded structure is located with the parser's
shared search strategy against the search page's initial-data global; the
spec does not give the row-decoding procedure, so a row is modelled as the
raw text following each `"videoRenderer":` row marker of the located
structure, wrapped as a raw value. -/
def extract_search_results (html : String) : List PyVal :=
  match extractTwoPattern "ytInitialData" html.toList with
  | Option.none => []
  | some cap =>
    (markerFragments ("\"videoRenderer\":".toList) cap).map
      (fun row => PyVal.str (String.mk row))

/-- Python's `pat in text` substring test. -/
def containsLit (pat : List Char) : List Char → Bool
  | [] => pat.isEmpty
  | text@(_ :: rest) => pat.isPrefixOf text || containsLit pat rest

/-! ## Literal / JSON parsing

`ast.literal_eval` (autocomplete) and `json.loads` (video info) are applied
to the extracted spans.  The spans this repository consumes are built from
double-quoted escape-free strings, integers, lists and string-keyed objects —
a sub-language on which Python-literal and JSON syntax coincide — so a single
recursive-descent parser models both.  `fuel` is a structural bound; callers
pass twice the input length plus a constant, which over-approximates the
number of recursive calls a successful parse can make. -/

/-- The characters of an escape-free double-quoted string, after the opening
quote. -/
def parseStringRest : List Char → Option (String × List Char)
  | [] => Option.none
  | '"' :: rest => some ("", rest)
  | c :: rest =>
    match parseStringRest rest with
    | some (s, rest1) => some (String.mk (c :: s.toList), rest1)
    | Option.none => Option.none

/-- A non-empty run of digits and its value. -/
def parseIntDigits (cs : List Char) : Option (Nat × List Char) :=
  match cs with
  | c :: _ =>
    if c.isDigit then
      some ((cs.takeWhile Char.isDigit).foldl (fun acc ch => acc * 10 + (ch.toNat - 48)) 0,
            cs.dropWhile Char.isDigit)
    else Option.none
  | [] => Option.none

mutual

/-- Parse one value at the head (leading whitespace allowed). -/
def parseVal : Nat → List Char → Option (PyVal × List Char)
  | 0, _ => Option.none
  | fuel + 1, cs =>
    match cs.dropWhile isPySpace with
    | '[' :: rest => parseListRest fuel rest
    | '{' :: rest => parseDictRest fuel rest
    | '"' :: rest =>
      match parseStringRest rest with
      | some (s, rest1) => some (PyVal.str s, rest1)
      | Option.none => Option.none
    | '-' :: rest =>
      match parseIntDigits rest with
      | some (n, rest1) => some (PyVal.int (-(n : Int)), rest1)
      | Option.none => Option.none
    | c :: rest =>
      if c.isDigit then
        match parseIntDigits (c :: rest) with
        | some (n, rest1) => some (PyVal.int (n : Int), rest1)
        | Option.none => Option.none
      else Option.none
    | [] => Option.none

/-- Parse list items after the opening `[`. -/
def parseListRest (fuel : Nat) (cs : List Char) : Option (PyVal × List Char) :=
  match fuel with
  | 0 => Option.none
  | fuel + 1 =>
    match cs.dropWhile isPySpace with
    | ']' :: rest => some (PyVal.list [], rest)
    | _ =>
      match parseVal fuel cs with
      | Option.none => Option.none
      | some (v, rest1) =>
        match parseListTail fuel rest1 with
        | some (vs, rest2) => some (PyVal.list (v :: vs), rest2)
        | Option.none => Option.none

/-- After one list item: `,` then more items, or `]`. -/
def parseListTail (fuel : Nat) (cs : List Char) : Option (List PyVal × List Char) :=
  match fuel with
  | 0 => Option.none
  | fuel + 1 =>
    match cs.dropWhile isPySpace with
    | ']' :: rest => some ([], rest)
    | ',' :: rest =>
      match parseVal fuel rest with
      | Option.none => Option.none
      | some (v, rest1) =>
        match parseListTail fuel rest1 with
        | some (vs, rest2) => some (v :: vs, rest2)
        | Option.none => Option.none
    | _ => Option.none

/-- Parse object entries after the opening `{`. -/
def parseDictRest (fuel : Nat) (cs : List Char) : Option (PyVal × List Char) :=
  match fuel with
  | 0 => Option.none
  | fuel + 1 =>
    match cs.dropWhile isPySpace with
    | '}' :: rest => some (PyVal.dict [], rest)
    | _ =>
      match parseDictEntry fuel cs with
      | Option.none => Option.none
      | some (kv, rest1) =>
        match parseDictTail fuel rest1 with
        | some (kvs, rest2) => some (PyVal.dict (kv :: kvs), rest2)
        | Option.none => Option.none

/-- One `"key": value` entry. -/
def parseDictEntry (fuel : Nat) (cs : List Char) : Option ((String × PyVal) × List Char) :=
  match fuel with
  | 0 => Option.none
  | fuel + 1 =>
    match cs.dropWhile isPySpace with
    | '"' :: rest =>
      match parseStringRest rest with
      | Option.none => Option.none
      | some (k, rest1) =>
        match rest1.dropWhile isPySpace with
        | ':' :: rest2 =>
          match parseVal fuel rest2 with
          | some (v, rest3) => some ((k, v), rest3)
          | Option.none => Option.none
        | _ => Option.none
    | _ => Option.none

/-- After one object entry: `,` then more entries, or `}`. -/
def parseDictTail (fuel : Nat) (cs : List Char) : Option (List (String × PyVal) × List Char) :=
  match fuel with
  | 0 => Option.none
  | fuel + 1 =>
    match cs.dropWhile isPySpace with
    | '}' :: rest => some ([], rest)
    | ',' :: rest =>
      match parseDictEntry fuel rest with
      | Option.none => Option.none
      | some (kv, rest1) =>
        match parseDictTail fuel rest1 with
        | some (kvs, rest2) => some (kv :: kvs, rest2)
        | Option.none => Option.none
    | _ => Option.none

end

/-- Evaluate a whole span: the parse must consume everything but trailing
whitespace.  The error text models `str(e)` of the SyntaxError/ValueError /
JSONDecodeError (its exact wording is not part of any contract). -/
def literalEval (s : String) : Except String PyVal :=
  match parseVal (2 * s.length + 4) s.toList with
  | some (v, rest) =>
    if (rest.dropWhile isPySpace).isEmpty then Except.ok v else Except.error "invalid syntax"
  | Option.none => Except.error "invalid syntax"

/-! ## Caller-visible outcomes and CPython raise/catch semantics

Both robust clients wrap each public operation's body in
`try ... except YouTubeError: raise  except Exception as e: return
YouTubeError(UNEXPECTED_ERROR, ..., str(e))`.

The body can finish four ways, modelled by `Except BodyExc (α ⊕ YouTubeError)`:
normal value, `return`ed YouTubeError value, an executed
`raise YouTubeError(...)` statement, or a genuine Python exception
(TypeError and friends).

The two clients then diverge because of their different `YouTubeError`
classes:
  * async (`models.py`: derives `Exception`): `except YouTubeError: raise`
    re-raises structured errors; the catch-all converts any other exception
    into a returned UNEXPECTED_ERROR value.
  * sync (`youtube.py`: no `Exception` base): the `raise YouTubeError(...)`
    statement itself raises `TypeError` ("exceptions must derive from
    BaseException"), and evaluating the `except YouTubeError:` clause against
    any in-flight exception raises `TypeError` ("catching classes that do not
    inherit from BaseException is not allowed"), which aborts handler
    selection before the `except Exception` clause is consulted.  Every
    exceptional path therefore surfaces to the caller as that `TypeError`. -/

/-- How a public-operation body finishes exceptionally. -/
inductive BodyExc where
  | raiseYT : YouTubeError → BodyExc
  | pyExc : String → BodyExc

/-- What the caller of a public operation observes. -/
inductive CallOutcome (α : Type) where
  | ok : α → CallOutcome α
  | returnedErr : YouTubeError → CallOutcome α
  | raisedErr : YouTubeError → CallOutcome α
  | raisedTypeError : String → CallOutcome α

/-- The synchronous clients' handler pair (youtube.py lines 220-228 /
284-292), with the module's non-exception `YouTubeError`. -/
def handleSync {α : Type} (b : Except BodyExc (α ⊕ YouTubeError)) : CallOutcome α :=
  match b with
  | Except.ok (Sum.inl a) => CallOutcome.ok a
  | Except.ok (Sum.inr e) => CallOutcome.returnedErr e
  | Except.error _ => CallOutcome.raisedTypeError catchNonExceptionMsg

/-- The asynchronous clients' handler pair (async_yt_api_wrapper.py lines
167-175 / 231-239), with the shared exception-derived `YouTubeError`. -/
def handleAsync {α : Type} (b : Except BodyExc (α ⊕ YouTubeError)) : CallOutcome α :=
  match b with
  | Except.ok (Sum.inl a) => CallOutcome.ok a
  | Except.ok (Sum.inr e) => CallOutcome.returnedErr e
  | Except.error (BodyExc.raiseYT e) => CallOutcome.raisedErr e
  | Except.error (BodyExc.pyExc m) =>
    CallOutcome.returnedErr
      { error_type := "UNEXPECTED_ERROR"
        message := "An unexpected error occurred"
        details := some m }

/-! ## Autocomplete (youtube.py lines 154-228, async lines 101-175; the two
bodies are textually identical) -/

/-- Lines 209-216 (sync) / 156-163 (async): the suggestion-extraction block
applied to the parsed structure.  `Option.none` models a Python `TypeError`
(e.g. `len()` of an int), which the surrounding handlers deal with. -/
def suggestionStep (data : PyVal) : Option (List PyVal) :=
  match pyLen data with
  | Option.none => Option.none
  | some n =>
    if n < 2 then some []
    else
      match pyIndex data 1 with
      | some (PyVal.list items) =>
        some (items.filterMap (fun item =>
          match item with
          | PyVal.list (x :: _) => some x
          | _ => Option.none))
      | some _ => some []
      | Option.none => Option.none

/-- The body of `auto_complete` given the validation result and the outcome of
`_make_request`: JSONP prefix check, span location between the first `[` and
the last `]`, literal evaluation, suggestion extraction. -/
def autoCompleteBody (validated : Option YouTubeError)
    (req : Except YouTubeError Resp) : Except BodyExc (List PyVal ⊕ YouTubeError) :=
  match validated with
  | some e => Except.error (BodyExc.raiseYT e)
  | Option.none =>
  match req with
  | Except.error e => Except.error (BodyExc.raiseYT e)
  | Except.ok resp =>
    let cs := resp.text.toList
    if !("window.google.ac.h(".toList.isPrefixOf cs) then
      Except.error (BodyExc.raiseYT
        { error_type := "PARSE_ERROR"
          message := "Unexpected response format"
          details := some (String.mk (cs.take 100)) })
    else
      match pyFindIdx '[' cs, pyRFindIdx ']' cs with
      | some jsonStart, some rIdx =>
        let jsonStr := String.mk (pySlice cs jsonStart (rIdx + 1))
        match literalEval jsonStr with
        | Except.error msg => Except.error (BodyExc.raiseYT
            { error_type := "PARSE_ERROR"
              message := "Failed to parse JSON response"
              details := some msg })
        | Except.ok data =>
          match suggestionStep data with
          | Option.none => Except.error (BodyExc.pyExc "TypeError: object has no len()")
          | some suggestions => Except.ok (Sum.inl suggestions)
      | _, _ =>
        Except.error (BodyExc.raiseYT
          { error_type := "PARSE_ERROR"
            message := "Could not find JSON data in response" })

/-- youtube.py `auto_complete` for a client with `max_retries = m`,
`retry_delay = d`, over the given transport. -/
def auto_complete_sync (m : Nat) (d : ℚ) (oracle : Nat → Attempt)
    (query : String) : CallOutcome (List PyVal) :=
  handleSync (autoCompleteBody (validate_query query) (make_request_sync m d oracle).1)

/-- async_yt_api_wrapper.py `auto_complete`. -/
def auto_complete_async (m : Nat) (d : ℚ) (oracle : Nat → Attempt)
    (query : String) : CallOutcome (List PyVal) :=
  handleAsync (autoCompleteBody (validate_query query) (make_request_async m d oracle).1)

/-! ## Video-info record builder (youtube.py lines 316-374; identically
re-exported to the async client as the shared utilities module) -/

/-- The `video_fields` table (lines 330-340), in source order. -/
def video_fields : List (String × String) :=
  [("video_id", "videoId"), ("title", "title"), ("description", "shortDescription"),
   ("author", "author"), ("channel_id", "channelId"), ("length_seconds", "lengthSeconds"),
   ("view_count", "viewCount"), ("keywords", "keywords"), ("thumbnail", "thumbnail")]

/-- The `microformat_fields` table (lines 343-346). -/
def microformat_fields : List (String × String) :=
  [("upload_date", "uploadDate"), ("category", "category")]

/-- Lines 353-357: coerce a string value through `int(...)`, keeping the
original on `ValueError`; non-strings pass through. -/
def coerceNum (v : PyVal) : PyVal :=
  match v with
  | PyVal.str s =>
    match pyInt s with
    | some n => PyVal.int n
    | Option.none => PyVal.str s
  | _ => v

/-- One iteration of the video-details loop (lines 349-358): skip absent /
`None` values, coerce the two numeric fields when the value is a string. -/
def buildStep (vd : PyDict) (res : PyDict) (p : String × String) : PyDict :=
  match dictGet vd p.2 with
  | Option.none => res
  | some PyVal.none => res
  | some v =>
    if p.1 = "length_seconds" || p.1 = "view_count" then dictSet res p.1 (coerceNum v)
    else dictSet res p.1 v

/-- One iteration of the microformat loop (lines 361-364). -/
def mfStep (mf : PyDict) (res : PyDict) (p : String × String) : PyDict :=
  match dictGet mf p.2 with
  | Option.none => res
  | some PyVal.none => res
  | some v => dictSet res p.1 v

/-- The result dictionary before the thumbnail post-processing. -/
def buildCore (vd mf : PyDict) : PyDict :=
  microformat_fields.foldl (mfStep mf) (video_fields.foldl (buildStep vd) [])

/-- The thumbnail post-processing (lines 367-372): when the stored raw
thumbnail value is a dict, select the last entry of its `thumbnails` list (if
truthy) as `thumbnail_url` and delete the raw key.  `Option.none` models a
Python exception escaping (indexing or `.get` on a value of the wrong
shape). -/
def thumbStep (res : PyDict) : Option PyDict :=
  match dictGet res "thumbnail" with
  | some (PyVal.dict td) =>
    let thumbnails := (dictGet td "thumbnails").getD (PyVal.list [])
    if pyTruthy thumbnails then
      match thumbnails with
      | PyVal.list l =>
        match l.getLast? with
        | some (PyVal.dict e) =>
          some (dictDel
            (dictSet res "thumbnail_url" ((dictGet e "url").getD (PyVal.str ""))) "thumbnail")
        | _ => Option.none
      | _ => Option.none
    else some (dictDel res "thumbnail")
  | _ => some res

/-- youtube.py `_build_video_info_dict`. -/
def build_video_info_dict (vd mf : PyDict) : Option PyDict :=
  thumbStep (buildCore vd mf)

/-! ## `get_video_info` (youtube.py lines 230-292, async lines 177-239)

The sync client additionally passes the built dictionary through
`YouTubeVideoBuilder(**result)` (line 282), whose dataclass constructor
requires exactly the eleven declared fields; the async client returns the
dictionary itself. -/

/-- The `YouTubeVideoBuilder` dataclass fields (youtube.py lines 21-34). -/
def builderFields : List String :=
  ["video_id", "title", "description", "author", "channel_id", "length_seconds",
   "view_count", "keywords", "upload_date", "category", "thumbnail_url"]

/-- `YouTubeVideoBuilder(**result)`: succeeds (keeping the record's contents)
exactly when every declared field is supplied and no unexpected key is, and
otherwise raises `TypeError`.  The record is represented by its field
dictionary. -/
def makeBuilder (r : PyDict) : Except BodyExc PyDict :=
  if builderFields.all (fun k => (dictGet r k).isSome) &&
     r.all (fun p => builderFields.contains p.1) then Except.ok r
  else Except.error (BodyExc.pyExc "TypeError: YouTubeVideoBuilder argument mismatch")

/-- The shared body of `get_video_info` up to the built dictionary, given the
validation result and the `_make_request` outcome: extract the player
response (PARSE_ERROR returned as a value when absent), decode the JSON
(PARSE_ERROR returned as a value on failure), require truthy `videoDetails`
(VIDEO_NOT_FOUND returned as a value otherwise), take the microformat
sub-dict with `{}` defaults, and build the record. -/
def videoInfoBody (validated : Option YouTubeError)
    (req : Except YouTubeError Resp) : Except BodyExc (PyDict ⊕ YouTubeError) :=
  match validated with
  | some e => Except.error (BodyExc.raiseYT e)
  | Option.none =>
  match req with
  | Except.error e => Except.error (BodyExc.raiseYT e)
  | Except.ok resp =>
    match extract_player_response resp.text with
    | Option.none => Except.ok (Sum.inr
        { error_type := "PARSE_ERROR", message := "Could not find player response data" })
    | some jsonData =>
      match literalEval jsonData with
      | Except.error msg => Except.ok (Sum.inr
          { error_type := "PARSE_ERROR"
            message := "Failed to parse video data JSON"
            details := some msg })
      | Except.ok data =>
        match data with
        | PyVal.dict dd =>
          let vdOpt := dictGet dd "videoDetails"
          if !(pyTruthy (vdOpt.getD PyVal.none)) then
            Except.ok (Sum.inr
              { error_type := "VIDEO_NOT_FOUND"
                message :=
                  "Video details not found (video may be private, deleted, or restricted)" })
          else
            match vdOpt with
            | some (PyVal.dict vd) =>
              match (dictGet dd "microformat").getD (PyVal.dict []) with
              | PyVal.dict mo =>
                match (dictGet mo "playerMicroformatRenderer").getD (PyVal.dict []) with
                | PyVal.dict mf =>
                  match build_video_info_dict vd mf with
                  | some result => Except.ok (Sum.inl result)
                  | Option.none =>
                    Except.error (BodyExc.pyExc "TypeError in thumbnail selection")
                | _ => Except.error (BodyExc.pyExc "AttributeError: no attribute get")
              | _ => Except.error (BodyExc.pyExc "AttributeError: no attribute get")
            | _ => Except.error (BodyExc.pyExc "AttributeError: no attribute get")
        | _ => Except.error (BodyExc.pyExc "AttributeError: no attribute get")

/-- youtube.py `get_video_info`: the shared body followed by
`YouTubeVideoBuilder(**result)`, under the sync module's handlers. -/
def get_video_info_sync (m : Nat) (d : ℚ) (oracle : Nat → Attempt)
    (video_id : String) : CallOutcome PyDict :=
  handleSync
    (match videoInfoBody (validate_video_id video_id) (make_request_sync m d oracle).1 with
     | Except.ok (Sum.inl result) =>
       match makeBuilder result with
       | Except.ok b => Except.ok (Sum.inl b)
       | Except.error e => Except.error e
     | other => other)

/-- async_yt_api_wrapper.py `get_video_info`: returns the dictionary itself. -/
def get_video_info_async (m : Nat) (d : ℚ) (oracle : Nat → Attempt)
    (video_id : String) : CallOutcome PyDict :=
  handleAsync (videoInfoBody (validate_video_id video_id) (make_request_async m d oracle).1)

/-! ## `search_videos` (async_yt_api_wrapper.py lines 241-275) -/

/-- Lines 260-266: the post-extraction step of `search_videos`, given the
sequence `_extract_search_results` produced.  An empty sequence yields a
NO_RESULTS error, which the source `return`s as a value (`Except.error` here
models that returned error value); otherwise `videos[:max_results]`. -/
def search_videos_post (videos : List PyVal) (max_results : Nat) :
    Except YouTubeError (List PyVal) :=
  if videos.isEmpty then
    Except.error
      { error_type := "NO_RESULTS", message := "No videos found for the search query." }
  else Except.ok (videos.take max_results)

/-! ## Concrete fixtures used by the theorems -/

/-- Whether a value is Python `None`. -/
def pyIsNone : PyVal → Bool
  | PyVal.none => true
  | _ => false

/-- The autocomplete fixture body exactly as the spec's testable property 4
gives it: `window.google.ac.h([",[["alpha",0],["beta",0]]])`. -/
def specAutocompleteFixture : String :=
  "window.google.ac.h([\x22,[[\x22alpha\x22,0],[\x22beta\x22,0]]])"

/-- The same fixture with its leading entry properly quoted, making the
bracket span a well-formed literal: `window.google.ac.h(["q",[["alpha",0],["beta",0]]])`. -/
def wellFormedAutocompleteFixture : String :=
  "window.google.ac.h([\x22q\x22,[[\x22alpha\x22,0],[\x22beta\x22,0]]])"

/-- A video page whose player response carries only a `videoId`: every other
builder field is absent from the source dictionaries. -/
def partialVideoPage : String :=
  "ytInitialPlayerResponse = \x7b\x22videoDetails\x22: " ++
  "\x7b\x22videoId\x22: \x22abc12345678\x22\x7d\x7d;"

/-- A video page supplying every field of the spec's testable property 6,
with numeric values as numeric strings and a three-entry thumbnail list. -/
def fullVideoPage : String :=
  "ytInitialPlayerResponse = \x7b\x22videoDetails\x22: \x7b" ++
  "\x22videoId\x22: \x22abc12345678\x22, \x22title\x22: \x22T\x22, " ++
  "\x22shortDescription\x22: \x22D\x22, \x22author\x22: \x22A\x22, " ++
  "\x22channelId\x22: \x22C\x22, \x22lengthSeconds\x22: \x2242\x22, " ++
  "\x22viewCount\x22: \x22100\x22, \x22keywords\x22: [\x22k\x22], " ++
  "\x22thumbnail\x22: \x7b\x22thumbnails\x22: [\x7b\x22url\x22: \x22u1\x22\x7d, " ++
  "\x7b\x22url\x22: \x22u2\x22\x7d, \x7b\x22url\x22: \x22u3\x22\x7d]\x7d\x7d, " ++
  "\x22microformat\x22: \x7b\x22playerMicroformatRenderer\x22: " ++
  "\x7b\x22uploadDate\x22: \x222020-01-01\x22, \x22category\x22: \x22Music\x22\x7d\x7d\x7d;"

/-- The record `get_video_info` builds from `fullVideoPage`, in insertion
order, with the numeric strings coerced and the last thumbnail selected. -/
def fullVideoRecord : PyDict :=
  [("video_id", PyVal.str "abc12345678"), ("title", PyVal.str "T"),
   ("description", PyVal.str "D"), ("author", PyVal.str "A"),
   ("channel_id", PyVal.str "C"), ("length_seconds", PyVal.int 42),
   ("view_count", PyVal.int 100), ("keywords", PyVal.list [PyVal.str "k"]),
   ("upload_date", PyVal.str "2020-01-01"), ("category", PyVal.str "Music"),
   ("thumbnail_url", PyVal.str "u3")]

/-! # Theorems -/

/-! ## C1 -/

/-- C1: the claim says the synchronous robust client raises validation and
retry-exhaustion failures as `YouTubeError` exceptions and that the caller
always receives the structured error type, never an unclassified runtime
error.  The code cannot do this: youtube.py's `YouTubeError` does not derive
`BaseException`, so every `raise YouTubeError(...)` path — empty-query
validation in `auto_complete`, malformed-ID validation in `get_video_info`,
transport exhaustion (REQUEST_FAILED) and HTTP-status exhaustion
(HTTP_ERROR) — surfaces to the caller as an unclassified `TypeError` raised
while CPython evaluates the `except YouTubeError:` clause. -/
theorem sync_failure_paths_raise_typeerror :
    auto_complete_sync 3 1 (fun _ => Attempt.exc "connection refused") "" =
      CallOutcome.raisedTypeError catchNonExceptionMsg ∧
    get_video_info_sync 3 1 (fun _ => Attempt.exc "connection refused") "not a valid id!" =
      CallOutcome.raisedTypeError catchNonExceptionMsg ∧
    auto_complete_sync 1 1 (fun _ => Attempt.exc "connection refused") "cats" =
      CallOutcome.raisedTypeError catchNonExceptionMsg ∧
    get_video_info_sync 1 1 (fun _ => Attempt.resp ⟨503, "busy"⟩) "abc12345678" =
      CallOutcome.raisedTypeError catchNonExceptionMsg :=
  ⟨rfl, rfl, rfl, rfl⟩

/-! ## C9 -/

/-- C9: `search_videos` fails with kind NO_RESULTS when the extracted result
sequence is empty, and otherwise returns exactly the first
`min(max_results, number extracted)` entries in extraction order —
truncating, never padding — so 15 extracted rows with `max_results = 5`
yield exactly the first 5. -/
theorem search_videos_truncation :
    (∀ max_results : Nat, search_videos_post [] max_results =
      Except.error
        { error_type := "NO_RESULTS", message := "No videos found for the search query." }) ∧
    (∀ (videos : List PyVal) (max_results : Nat), videos ≠ [] →
      search_videos_post videos max_results = Except.ok (videos.take max_results) ∧
      (videos.take max_results).length = min max_results videos.length) ∧
    (∀ videos : List PyVal, videos.length = 15 →
      search_videos_post videos 5 = Except.ok (videos.take 5) ∧
      (videos.take 5).length = 5) := by
  refine ⟨fun _ => rfl, fun videos mr h => ?_, fun videos h => ?_⟩
  · rw [search_videos_post, if_neg (by simpa using h)]
    exact ⟨rfl, List.length_take mr videos⟩
  · have hne : videos ≠ [] := by
      intro he
      rw [he] at h
      exact absurd h (by decide)
    rw [search_videos_post, if_neg (by simpa using hne)]
    refine ⟨rfl, ?_⟩
    rw [List.length_take 5 videos, h]
    decide

/-- C9 witness: fifteen concrete rows with `max_results = 5`. -/
theorem search_videos_truncation_witness :
    search_videos_post ((List.range 15).map (fun i => PyVal.int i)) 5 =
      Except.ok (((List.range 15).map (fun i => PyVal.int i)).take 5) ∧
    (((List.range 15).map (fun i => PyVal.int i)).take 5).length = 5 :=
  search_videos_truncation.2.2 _ rfl

/-! ## C3 -/

/-- C3 counterexample: the claim says every string whose length is not 11, or
containing a character outside `[A-Za-z0-9_-]`, fails validation.  The
12-character string `"abc12345678 "`, whose final character is a space
(outside the allowed class), nevertheless passes, because
`_validate_video_id` applies the pattern to `video_id.strip()`. -/
theorem video_id_strip_counterexample :
    "abc12345678 ".length = 12 ∧ isAllowedIdChar ' ' = false ∧
    validate_video_id "abc12345678 " = Option.none :=
  ⟨rfl, rfl, rfl⟩

/-- C3 (amended): video-ID validation passes exactly when the
whitespace-stripped input consists of 11 characters drawn from letters,
digits, hyphen and underscore, and every failure carries kind
`INVALID_INPUT`. -/
theorem video_id_validation_characterization (s : String) :
    (validate_video_id s = Option.none ↔
      ((pyStrip s).length = 11 ∧ (pyStrip s).toList.all isAllowedIdChar = true)) ∧
    (∀ e : YouTubeError, validate_video_id s = some e → e.error_type = "INVALID_INPUT") := by
  have hlen : (pyStrip s).length = (pyStrip s).toList.length := rfl
  unfold validate_video_id
  by_cases h1 : (s.toList.isEmpty || (pyStrip s).toList.isEmpty) = true
  · rw [if_pos h1]
    refine ⟨⟨fun h => Option.noConfusion h, fun hc => ?_⟩, fun e he => ?_⟩
    · exfalso
      have hstrip : (pyStrip s).toList = [] := by
        rcases (Bool.or_eq_true _ _).mp h1 with ha | hb
        · have hx0 : s.toList = [] := by
            cases hx : s.toList
            · rfl
            · rw [hx] at ha
              exact absurd ha (by simp [List.isEmpty])
          show pyStripList s.toList = []
          rw [hx0]
          rfl
        · cases hx : (pyStrip s).toList
          · rfl
          · rw [hx] at hb
            exact absurd hb (by simp [List.isEmpty])
      rw [hlen, hstrip] at hc
      exact absurd hc.1 (by decide)
    · cases he
      rfl
  · rw [if_neg h1]
    by_cases h2 : matchesVideoIdPattern (pyStrip s) = true
    · rw [if_neg (by simp [h2])]
      refine ⟨⟨fun _ => ?_, fun _ => rfl⟩, fun e he => Option.noConfusion he⟩
      have h3 := h2
      rw [matchesVideoIdPattern] at h3
      simpa using h3
    · rw [if_pos (by simp [h2])]
      refine ⟨⟨fun h => Option.noConfusion h, fun hc => ?_⟩, fun e he => ?_⟩
      · exfalso
        apply h2
        rw [matchesVideoIdPattern]
        simp only [hc.1, hc.2]
        rfl
      · cases he
        rfl

/-- C3 witness: a canonical 11-character ID passes validation. -/
theorem video_id_validation_characterization_witness :
    validate_video_id "dQw4w9WgXcQ" = Option.none :=
  (video_id_validation_characterization "dQw4w9WgXcQ").1.mpr ⟨rfl, rfl⟩

/-! ## Retry-loop lemmas -/

/-- When every attempt yields a transport exception, the synchronous loop
runs through all its attempts, waits the exponential-backoff schedule, and
produces REQUEST_FAILED carrying the last exception's text. -/
lemma mrLoopSync_all_exc (oracle : Nat → Attempt) (es : Nat → String) (d : ℚ) :
    ∀ (remaining attempt : Nat),
      (∀ k, k ≤ attempt + remaining → oracle k = Attempt.exc (es k)) →
      mrLoopSync oracle d attempt remaining =
        (Except.error (requestFailedError (es (attempt + remaining))),
         attempt + remaining + 1, backoffWaits d attempt remaining) := by
  intro remaining
  induction remaining with
  | zero =>
    intro attempt h
    simp only [mrLoopSync, h attempt (by omega), Nat.add_zero, backoffWaits]
  | succ n ih =>
    intro attempt h
    have heq : attempt + (n + 1) = attempt + 1 + n := by omega
    simp only [mrLoopSync, h attempt (by omega), heq, backoffWaits,
      ih (attempt + 1) (fun k hk => h k (by omega))]

/-- The asynchronous analogue of `mrLoopSync_all_exc`. -/
lemma mrLoopAsync_all_exc (oracle : Nat → Attempt) (es : Nat → String) (d : ℚ) :
    ∀ (remaining attempt : Nat),
      (∀ k, k ≤ attempt + remaining → oracle k = Attempt.exc (es k)) →
      mrLoopAsync oracle d attempt remaining =
        (Except.error (requestFailedError (es (attempt + remaining))),
         attempt + remaining + 1, backoffWaits d attempt remaining) := by
  intro remaining
  induction remaining with
  | zero =>
    intro attempt h
    simp only [mrLoopAsync, h attempt (by omega), Nat.add_zero, backoffWaits]
  | succ n ih =>
    intro attempt h
    have heq : attempt + (n + 1) = attempt + 1 + n := by omega
    simp only [mrLoopAsync, h attempt (by omega), heq, backoffWaits,
      ih (attempt + 1) (fun k hk => h k (by omega))]

/-- The backoff schedule from attempt `a` as a mapped range. -/
lemma backoffWaits_eq_map (d : ℚ) : ∀ (n a : Nat),
    backoffWaits d a n = (List.range n).map (fun k => d * 2 ^ (a + k)) := by
  intro n
  induction n with
  | zero => intro a; rfl
  | succ m ih =>
    intro a
    rw [backoffWaits, List.range_succ_eq_map, List.map_cons, List.map_map, ih (a + 1)]
    refine congrArg₂ _ (by rw [Nat.add_zero]) ?_
    refine congrArg (fun f => List.map f (List.range m)) ?_
    funext k
    show d * 2 ^ (a + 1 + k) = d * 2 ^ (a + (k + 1))
    rw [Nat.add_assoc, Nat.add_comm 1 k]

/-! ## C4 -/

/-- C4: when every HTTP attempt fails with a transport exception, the
request-execution routine makes exactly `max_retries + 1` attempts, waits
`retry_delay * 2^k` time-units after failed attempt `k` for
`k = 0 .. max_retries - 1` (no wait after the final attempt), and produces a
structured error of kind REQUEST_FAILED carrying the last underlying error
text as detail — for the asynchronous routine (which raises it) and the
synchronous loop alike. -/
theorem retry_exhaustion_schedule (m : Nat) (d : ℚ) (oracle : Nat → Attempt)
    (es : Nat → String) (h : ∀ k, k ≤ m → oracle k = Attempt.exc (es k)) :
    make_request_async m d oracle =
      (Except.error (requestFailedError (es m)), m + 1,
       (List.range m).map (fun k => d * 2 ^ k)) ∧
    make_request_sync m d oracle =
      (Except.error (requestFailedError (es m)), m + 1,
       (List.range m).map (fun k => d * 2 ^ k)) := by
  have hw : backoffWaits d 0 m = (List.range m).map (fun k => d * 2 ^ k) := by
    rw [backoffWaits_eq_map d m 0]
    refine congrArg (fun f => List.map f (List.range m)) ?_
    funext k
    rw [Nat.zero_add]
  constructor
  · rw [make_request_async, mrLoopAsync_all_exc oracle es d m 0 (by simpa using h)]
    rw [Nat.zero_add, hw]
  · rw [make_request_sync, mrLoopSync_all_exc oracle es d m 0 (by simpa using h)]
    rw [Nat.zero_add, hw]

/-- C4 witness: three retries, unit delay, a transport that always fails. -/
theorem retry_exhaustion_schedule_witness :
    make_request_async 3 1 (fun _ => Attempt.exc "boom") =
      (Except.error (requestFailedError "boom"), 4,
       (List.range 3).map (fun k => (1 : ℚ) * 2 ^ k)) ∧
    make_request_sync 3 1 (fun _ => Attempt.exc "boom") =
      (Except.error (requestFailedError "boom"), 4,
       (List.range 3).map (fun k => (1 : ℚ) * 2 ^ k)) :=
  retry_exhaustion_schedule 3 1 (fun _ => Attempt.exc "boom") (fun _ => "boom")
    (fun _ _ => rfl)

/-! ## C5 -/

/-- C5 counterexample: the claim says the async request execution follows the
same policy as the synchronous one except for the success predicate.  At
status 500 both predicates reject, yet with `max_retries = 0` the two
routines produce different failures: the async routine's final-attempt
HTTP_ERROR raise is swallowed by its own `except Exception` catch-all, so it
ends in REQUEST_FAILED (with empty detail, `str` of an argument-less
dataclass exception), while the synchronous routine constructs HTTP_ERROR
with the response body as detail. -/
theorem async_http_exhaustion_kind_counterexample :
    respOkAsync 500 = respOkSync 500 ∧
    make_request_async 0 1 (fun _ => Attempt.resp ⟨500, "server error"⟩) =
      (Except.error (requestFailedError ""), 1, []) ∧
    make_request_sync 0 1 (fun _ => Attempt.resp ⟨500, "server error"⟩) =
      (Except.error (httpStatusError ⟨500, "server error"⟩), 1, []) ∧
    requestFailedError "" ≠ httpStatusError ⟨500, "server error"⟩ :=
  ⟨rfl, rfl, rfl, by decide⟩

/-- C5 (amended): the success predicates are exactly "status = 200" (async)
versus "status in the OK range, below 400" (sync); on transports that fail
every attempt with an exception the two routines behave identically; but on a
final-attempt HTTP-status failure the async routine produces REQUEST_FAILED
with empty detail (its HTTP_ERROR raise is swallowed by its catch-all) where
the synchronous routine produces HTTP_ERROR. -/
theorem make_request_policy_comparison :
    (∀ s : Nat, respOkAsync s = true ↔ s = 200) ∧
    (∀ s : Nat, respOkSync s = true ↔ s < 400) ∧
    (∀ (m : Nat) (d : ℚ) (oracle : Nat → Attempt) (es : Nat → String),
      (∀ k, k ≤ m → oracle k = Attempt.exc (es k)) →
      make_request_async m d oracle = make_request_sync m d oracle) ∧
    (∀ (d : ℚ) (attempt : Nat) (oracle : Nat → Attempt) (r : Resp),
      oracle attempt = Attempt.resp r → respOkAsync r.status = false →
      respOkSync r.status = false →
      mrLoopAsync oracle d attempt 0 =
        (Except.error (requestFailedError ""), attempt + 1, []) ∧
      mrLoopSync oracle d attempt 0 =
        (Except.error (httpStatusError r), attempt + 1, [])) := by
  refine ⟨fun s => by simp [respOkAsync], fun s => by simp [respOkSync],
    fun m d oracle es h => ?_, fun d attempt oracle r ho ha hs => ?_⟩
  · rw [(retry_exhaustion_schedule m d oracle es h).1,
      (retry_exhaustion_schedule m d oracle es h).2]
  · constructor
    · simp only [mrLoopAsync, ho, ha, Bool.false_eq_true, if_false]
    · simp only [mrLoopSync, ho, hs, Bool.false_eq_true, if_false]

/-- C5 witness: concrete instantiations of the predicate characterizations,
the all-exception agreement, and the final-attempt divergence. -/
theorem make_request_policy_comparison_witness :
    make_request_async 1 1 (fun _ => Attempt.exc "refused") =
      make_request_sync 1 1 (fun _ => Attempt.exc "refused") ∧
    mrLoopAsync (fun _ => Attempt.resp ⟨500, "server error"⟩) 1 0 0 =
      (Except.error (requestFailedError ""), 1, []) ∧
    mrLoopSync (fun _ => Attempt.resp ⟨500, "server error"⟩) 1 0 0 =
      (Except.error (httpStatusError ⟨500, "server error"⟩), 1, []) :=
  ⟨make_request_policy_comparison.2.2.1 1 1 (fun _ => Attempt.exc "refused")
      (fun _ => "refused") (fun _ _ => rfl),
    (make_request_policy_comparison.2.2.2 1 0 (fun _ => Attempt.resp ⟨500, "server error"⟩)
      ⟨500, "server error"⟩ rfl rfl rfl).1,
    (make_request_policy_comparison.2.2.2 1 0 (fun _ => Attempt.resp ⟨500, "server error"⟩)
      ⟨500, "server error"⟩ rfl rfl rfl).2⟩

/-! ## C6 -/

/-- C6 counterexample: the claim says the fixture body
`window.google.ac.h([",[["alpha",0],["beta",0]]])` yields
`["alpha", "beta"]`.  It does not: the span between its first `[` and last
`]` is `[",[["alpha",0],["beta",0]]]`, whose leading `",[["` is a string
literal immediately followed by the bare word `alpha` — a syntax error — so
`ast.literal_eval` fails and the robust autocomplete raises PARSE_ERROR
instead. -/
theorem autocomplete_fixture_counterexample :
    auto_complete_async 3 1 (fun _ => Attempt.resp ⟨200, specAutocompleteFixture⟩) "test" =
      CallOutcome.raisedErr
        { error_type := "PARSE_ERROR", message := "Failed to parse JSON response",
          details := some "invalid syntax" } ∧
    CallOutcome.raisedErr (α := List PyVal)
        { error_type := "PARSE_ERROR", message := "Failed to parse JSON response",
          details := some "invalid syntax" } ≠
      CallOutcome.ok [PyVal.str "alpha", PyVal.str "beta"] :=
  ⟨rfl, fun h => CallOutcome.noConfusion h⟩

/-- C6 (amended): after the JSONP span is parsed, a structure with fewer than
2 elements, or whose second element is not a list, yields an empty list (not
an error); otherwise autocomplete returns, in original order, the first
element of each entry of the second element that is itself a non-empty list.
The spec's fixture body as given is not a well-formed literal and yields a
raised PARSE_ERROR; the corrected fixture
`window.google.ac.h(["q",[["alpha",0],["beta",0]]])` yields
`["alpha", "beta"]` on both robust clients. -/
theorem autocomplete_suggestions_amended :
    (∀ xs : List PyVal, xs.length < 2 → suggestionStep (PyVal.list xs) = some []) ∧
    (∀ (a b : PyVal) (rest : List PyVal), (∀ l, b ≠ PyVal.list l) →
      suggestionStep (PyVal.list (a :: b :: rest)) = some []) ∧
    (∀ (a : PyVal) (items rest : List PyVal),
      suggestionStep (PyVal.list (a :: PyVal.list items :: rest)) =
        some (items.filterMap (fun item =>
          match item with
          | PyVal.list (x :: _) => some x
          | _ => Option.none))) ∧
    auto_complete_async 3 1 (fun _ => Attempt.resp ⟨200, wellFormedAutocompleteFixture⟩)
        "test" = CallOutcome.ok [PyVal.str "alpha", PyVal.str "beta"] ∧
    auto_complete_sync 3 1 (fun _ => Attempt.resp ⟨200, wellFormedAutocompleteFixture⟩)
        "test" = CallOutcome.ok [PyVal.str "alpha", PyVal.str "beta"] ∧
    auto_complete_async 3 1 (fun _ => Attempt.resp ⟨200, specAutocompleteFixture⟩) "test" =
      CallOutcome.raisedErr
        { error_type := "PARSE_ERROR", message := "Failed to parse JSON response",
          details := some "invalid syntax" } := by
  refine ⟨fun xs h => ?_, fun a b rest hb => ?_, fun a items rest => ?_, rfl, rfl, rfl⟩
  · simp [suggestionStep, pyLen, if_pos h]
  · have h2 : ¬ ((a :: b :: rest).length < 2) := by simp
    cases b with
    | list l => exact absurd rfl (hb l)
    | str s => simp [suggestionStep, pyLen, pyIndex, h2]
    | int n => simp [suggestionStep, pyLen, pyIndex, h2]
    | dict d => simp [suggestionStep, pyLen, pyIndex, h2]
    | none => simp [suggestionStep, pyLen, pyIndex, h2]
  · have h2 : ¬ ((a :: PyVal.list items :: rest).length < 2) := by simp
    simp [suggestionStep, pyLen, pyIndex, h2]

/-- C6 witness: the empty parsed structure yields the empty suggestion
list. -/
theorem autocomplete_suggestions_amended_witness :
    suggestionStep (PyVal.list []) = some [] :=
  autocomplete_suggestions_amended.1 [] (by decide)

/-! ## Search-strategy lemmas -/

/-- A successful literal match means the literal is a prefix. -/
lemma matchLit_isPrefixOf : ∀ (pat text rest : List Char),
    matchLit pat text = some rest → pat.isPrefixOf text = true := by
  intro pat
  induction pat with
  | nil =>
    intro text rest _
    cases text <;> rfl
  | cons p ps ih =>
    intro text rest h
    cases text with
    | nil => cases h
    | cons c cs =>
      rw [matchLit] at h
      by_cases hpc : p = c
      · show (p == c && ps.isPrefixOf cs) = true
        rw [if_pos hpc] at h
        simp [hpc, ih cs rest h]
      · rw [if_neg hpc] at h
        cases h

/-- Contrapositive form of `matchLit_isPrefixOf`. -/
lemma matchLit_none_of_not_prefix (pat text : List Char)
    (h : pat.isPrefixOf text = false) : matchLit pat text = Option.none := by
  cases hm : matchLit pat text with
  | none => rfl
  | some rest =>
    rw [matchLit_isPrefixOf pat text rest hm] at h
    cases h

/-- The assignment pattern cannot match where the global is not a prefix. -/
lemma tryMatchAssign_none (glob text : List Char) (h : glob.isPrefixOf text = false) :
    tryMatchAssign glob text = Option.none := by
  rw [tryMatchAssign, matchLit_none_of_not_prefix glob text h]

/-- The quoted pattern cannot match where the global is not a prefix. -/
lemma tryMatchQuoted_none (glob text : List Char) (h : glob.isPrefixOf text = false) :
    tryMatchQuoted glob text = Option.none := by
  have hlong : (glob ++ ['"', ':']).isPrefixOf text = false := by
    cases hm : (glob ++ ['"', ':']).isPrefixOf text
    · rfl
    · exfalso
      have h1 : glob <+: glob ++ ['"', ':'] := List.prefix_append _ _
      have h2 : glob ++ ['"', ':'] <+: text := List.isPrefixOf_iff_prefix.mp hm
      have h3 := List.isPrefixOf_iff_prefix.mpr (h1.trans h2)
      rw [h3] at h
      cases h
  rw [tryMatchQuoted, matchLit_none_of_not_prefix (glob ++ ['"', ':']) text hlong]

/-- `re.search` finds nothing when the anchored matcher fails at every
suffix, in particular when the literal occurs nowhere. -/
lemma reSearch_none (f : List Char → Option (List Char)) (pat : List Char)
    (hf : ∀ s, pat.isPrefixOf s = false → f s = Option.none) :
    ∀ text, containsLit pat text = false → reSearch f text = Option.none := by
  intro text
  induction text with
  | nil =>
    intro h
    rw [reSearch]
    apply hf
    rw [containsLit] at h
    cases pat with
    | nil => cases h
    | cons p ps => rfl
  | cons c rest ih =>
    intro h
    rw [containsLit] at h
    have h1 : pat.isPrefixOf (c :: rest) = false := by
      cases hx : pat.isPrefixOf (c :: rest)
      · rfl
      · rw [hx] at h
        cases h
    have h2 : containsLit pat rest = false := by
      cases hx : containsLit pat rest
      · rfl
      · rw [hx] at h
        simp at h
    simp only [reSearch, hf _ h1, ih h2]

/-! ## C2 -/

/-- C2: the extraction parser provides an extract-initial-data operation,
returning an absent result when the channel-page initial-data global is not
found, and an extract-search-results operation, returning an empty sequence
when no results section is found — here witnessed whenever the initial-data
global occurs nowhere in the page text, so that neither search pattern can
match. -/
theorem parser_absent_results (html : String)
    (h : containsLit "ytInitialData".toList html.toList = false) :
    extract_initial_data html = Option.none ∧ extract_search_results html = [] := by
  have hboth : extractTwoPattern "ytInitialData" html.toList = Option.none := by
    rw [extractTwoPattern,
      reSearch_none _ _ (fun s hs => tryMatchAssign_none _ s hs) html.toList h,
      reSearch_none _ _ (fun s hs => tryMatchQuoted_none _ s hs) html.toList h]
  constructor
  · simp only [extract_initial_data, hboth]
    rfl
  · simp only [extract_search_results, hboth]

/-- C2 witness: a page with no embedded data global. -/
theorem parser_absent_results_witness :
    extract_initial_data "<html><body>nothing</body></html>" = Option.none ∧
    extract_search_results "<html><body>nothing</body></html>" = [] :=
  parser_absent_results "<html><body>nothing</body></html>" rfl

/-! ## Dictionary lemmas -/

lemma dictGet_dictSet_self (d : PyDict) (k : String) (v : PyVal) :
    dictGet (dictSet d k v) k = some v := by
  induction d with
  | nil => simp [dictSet, dictGet]
  | cons p rest ih =>
    obtain ⟨k1, v1⟩ := p
    rw [dictSet]
    by_cases h : k1 = k
    · rw [if_pos h, dictGet, if_pos h]
    · rw [if_neg h, dictGet, if_neg h, ih]

lemma dictGet_dictSet_ne (d : PyDict) (k k1 : String) (v : PyVal) (h : k1 ≠ k) :
    dictGet (dictSet d k v) k1 = dictGet d k1 := by
  induction d with
  | nil =>
    rw [dictSet, dictGet, dictGet, if_neg (fun he => h (he.symm))]
    rfl
  | cons p rest ih =>
    obtain ⟨k2, v2⟩ := p
    rw [dictSet]
    by_cases h2 : k2 = k
    · have h3 : k2 ≠ k1 := fun he => h (he.symm.trans h2)
      rw [if_pos h2, dictGet, dictGet, if_neg h3, if_neg h3]
    · rw [if_neg h2, dictGet, dictGet]
      by_cases h3 : k2 = k1
      · rw [if_pos h3, if_pos h3]
      · rw [if_neg h3, if_neg h3, ih]

lemma dictGet_dictDel_self (d : PyDict) (k : String) :
    dictGet (dictDel d k) k = Option.none := by
  induction d with
  | nil => rfl
  | cons p rest ih =>
    obtain ⟨k1, v1⟩ := p
    rw [dictDel, List.filter_cons]
    by_cases h : k1 = k
    · simpa [h] using ih
    · rw [if_pos (by simpa using h)]
      rw [dictGet, if_neg h]
      exact ih

lemma dictGet_dictDel_ne (d : PyDict) (k k1 : String) (h : k1 ≠ k) :
    dictGet (dictDel d k) k1 = dictGet d k1 := by
  induction d with
  | nil => rfl
  | cons p rest ih =>
    obtain ⟨k2, v2⟩ := p
    simp only [dictDel] at ih ⊢
    rw [List.filter_cons]
    by_cases h2 : k2 = k
    · have h3 : k2 ≠ k1 := fun he => h (he.symm.trans h2)
      rw [if_neg (by simpa using h2), ih]
      conv_rhs => rw [dictGet]
      rw [if_neg h3]
    · rw [if_pos (by simpa using h2), dictGet, dictGet]
      by_cases h3 : k2 = k1
      · rw [if_pos h3, if_pos h3]
      · rw [if_neg h3, if_neg h3, ih]

/-! ## Builder-fold lemmas -/

lemma buildStep_absent (vd res : PyDict) (p : String × String)
    (h : dictGet vd p.2 = Option.none) : buildStep vd res p = res := by
  unfold buildStep
  rw [h]

lemma buildStep_get_ne (vd res : PyDict) (p : String × String) (k : String)
    (h : k ≠ p.1) : dictGet (buildStep vd res p) k = dictGet res k := by
  unfold buildStep
  split
  · rfl
  · rfl
  · by_cases hc : (p.1 = "length_seconds" || p.1 = "view_count") = true
    · rw [if_pos hc, dictGet_dictSet_ne _ _ _ _ h]
    · rw [if_neg hc, dictGet_dictSet_ne _ _ _ _ h]

/-- Reading back the key just written by either branch of the numeric-field
test. -/
lemma ite_dictSet_get (res : PyDict) (rk : String) (v : PyVal) :
    dictGet (if rk = "length_seconds" || rk = "view_count"
        then dictSet res rk (coerceNum v) else dictSet res rk v) rk =
      some (if rk = "length_seconds" || rk = "view_count" then coerceNum v else v) := by
  by_cases hc : (rk = "length_seconds" || rk = "view_count") = true
  · rw [if_pos hc, if_pos hc, dictGet_dictSet_self]
  · rw [if_neg hc, if_neg hc, dictGet_dictSet_self]

lemma buildStep_get_self (vd res : PyDict) (p : String × String) (v : PyVal)
    (hv : dictGet vd p.2 = some v) (hvn : pyIsNone v = false) :
    dictGet (buildStep vd res p) p.1 =
      some (if p.1 = "length_seconds" || p.1 = "view_count" then coerceNum v else v) := by
  unfold buildStep
  rw [hv]
  cases v with
  | none => simp [pyIsNone] at hvn
  | str s => exact ite_dictSet_get res p.1 (PyVal.str s)
  | int n => exact ite_dictSet_get res p.1 (PyVal.int n)
  | list l => exact ite_dictSet_get res p.1 (PyVal.list l)
  | dict d => exact ite_dictSet_get res p.1 (PyVal.dict d)

lemma foldl_buildStep_get_ne (vd : PyDict) (k : String) :
    ∀ (tbl : List (String × String)) (res : PyDict),
      (∀ p ∈ tbl, p.1 ≠ k) →
      dictGet (tbl.foldl (buildStep vd) res) k = dictGet res k := by
  intro tbl
  induction tbl with
  | nil => intro res _; rfl
  | cons q rest ih =>
    intro res h
    rw [List.foldl_cons, ih _ (fun p hp => h p (List.mem_cons_of_mem q hp)),
      buildStep_get_ne vd res q k (h q (List.mem_cons_self q rest)).symm]

lemma foldl_buildStep_get_split (vd : PyDict) (rk ak : String)
    (tbl1 tbl2 : List (String × String)) (res : PyDict) (v : PyVal)
    (h2 : ∀ p ∈ tbl2, p.1 ≠ rk) (hv : dictGet vd ak = some v)
    (hvn : pyIsNone v = false) :
    dictGet ((tbl1 ++ (rk, ak) :: tbl2).foldl (buildStep vd) res) rk =
      some (if rk = "length_seconds" || rk = "view_count" then coerceNum v else v) := by
  rw [List.foldl_append, List.foldl_cons, foldl_buildStep_get_ne vd rk tbl2 _ h2,
    buildStep_get_self vd _ (rk, ak) v hv hvn]

lemma mfStep_get_ne (mf res : PyDict) (p : String × String) (k : String)
    (h : k ≠ p.1) : dictGet (mfStep mf res p) k = dictGet res k := by
  unfold mfStep
  split
  · rfl
  · rfl
  · rw [dictGet_dictSet_ne _ _ _ _ h]

lemma mfStep_get_self (mf res : PyDict) (p : String × String) (v : PyVal)
    (hv : dictGet mf p.2 = some v) (hvn : pyIsNone v = false) :
    dictGet (mfStep mf res p) p.1 = some v := by
  unfold mfStep
  rw [hv]
  cases v with
  | none => simp [pyIsNone] at hvn
  | str s => exact dictGet_dictSet_self res p.1 (PyVal.str s)
  | int n => exact dictGet_dictSet_self res p.1 (PyVal.int n)
  | list l => exact dictGet_dictSet_self res p.1 (PyVal.list l)
  | dict d => exact dictGet_dictSet_self res p.1 (PyVal.dict d)

lemma foldl_mfStep_get_ne (mf : PyDict) (k : String) :
    ∀ (tbl : List (String × String)) (res : PyDict),
      (∀ p ∈ tbl, p.1 ≠ k) →
      dictGet (tbl.foldl (mfStep mf) res) k = dictGet res k := by
  intro tbl
  induction tbl with
  | nil => intro res _; rfl
  | cons q rest ih =>
    intro res h
    rw [List.foldl_cons, ih _ (fun p hp => h p (List.mem_cons_of_mem q hp)),
      mfStep_get_ne mf res q k (h q (List.mem_cons_self q rest)).symm]

lemma foldl_mfStep_get_split (mf : PyDict) (rk ak : String)
    (tbl1 tbl2 : List (String × String)) (res : PyDict) (v : PyVal)
    (h2 : ∀ p ∈ tbl2, p.1 ≠ rk) (hv : dictGet mf ak = some v)
    (hvn : pyIsNone v = false) :
    dictGet ((tbl1 ++ (rk, ak) :: tbl2).foldl (mfStep mf) res) rk = some v := by
  rw [List.foldl_append, List.foldl_cons, foldl_mfStep_get_ne mf rk tbl2 _ h2,
    mfStep_get_self mf _ (rk, ak) v hv hvn]

/-- With no raw thumbnail in the source details, the built core dictionary
has no `thumbnail` key. -/
lemma buildCore_thumbnail_none (vd mf : PyDict)
    (h : dictGet vd "thumbnail" = Option.none) :
    dictGet (buildCore vd mf) "thumbnail" = Option.none := by
  rw [buildCore, foldl_mfStep_get_ne mf "thumbnail" microformat_fields _ (by decide),
    show video_fields =
      [("video_id", "videoId"), ("title", "title"), ("description", "shortDescription"),
       ("author", "author"), ("channel_id", "channelId"),
       ("length_seconds", "lengthSeconds"), ("view_count", "viewCount"),
       ("keywords", "keywords")] ++ [("thumbnail", "thumbnail")] from rfl,
    List.foldl_append, List.foldl_cons, List.foldl_nil, buildStep_absent vd _ _ h,
    foldl_buildStep_get_ne vd "thumbnail" _ [] (by decide)]
  rfl

/-- With no raw thumbnail, the thumbnail post-processing passes the core
dictionary through unchanged. -/
lemma build_dict_of_thumbnail_none (vd mf : PyDict)
    (h : dictGet vd "thumbnail" = Option.none) :
    build_video_info_dict vd mf = some (buildCore vd mf) := by
  rw [build_video_info_dict]
  unfold thumbStep
  rw [buildCore_thumbnail_none vd mf h]

/-- The thumbnail post-processing when the raw thumbnail is a dict holding a
non-empty `thumbnails` list whose last entry is a dict with a `url`. -/
lemma thumbStep_select (res td : PyDict) (l : List PyVal) (e : PyDict) (u : PyVal)
    (hres : dictGet res "thumbnail" = some (PyVal.dict td))
    (h2 : dictGet td "thumbnails" = some (PyVal.list l))
    (hne : l.isEmpty = false)
    (h3 : l.getLast? = some (PyVal.dict e))
    (h4 : dictGet e "url" = some u) :
    thumbStep res = some (dictDel (dictSet res "thumbnail_url" u) "thumbnail") := by
  simp only [thumbStep, hres, h2, h3, h4, Option.getD_some, pyTruthy, hne,
    Bool.not_false, if_true]

/-! ## C7 -/

/-- C7: in the video-info record builder, for `length_seconds` and
`view_count`, a source value that is a string parseable as an integer is
coerced to that integer; a string on which coercion fails is kept unchanged,
with the lookup still succeeding; and all other fields are copied verbatim
from their source dictionaries.  (Stated for details dictionaries with no raw
thumbnail key, so that the thumbnail post-processing is the identity; C8
covers the thumbnail path.) -/
theorem builder_numeric_coercion (vd mf : PyDict)
    (hth : dictGet vd "thumbnail" = Option.none) :
    ∃ r, build_video_info_dict vd mf = some r ∧
      (∀ s n, dictGet vd "lengthSeconds" = some (PyVal.str s) → pyInt s = some n →
        dictGet r "length_seconds" = some (PyVal.int n)) ∧
      (∀ s, dictGet vd "lengthSeconds" = some (PyVal.str s) → pyInt s = Option.none →
        dictGet r "length_seconds" = some (PyVal.str s)) ∧
      (∀ s n, dictGet vd "viewCount" = some (PyVal.str s) → pyInt s = some n →
        dictGet r "view_count" = some (PyVal.int n)) ∧
      (∀ s, dictGet vd "viewCount" = some (PyVal.str s) → pyInt s = Option.none →
        dictGet r "view_count" = some (PyVal.str s)) ∧
      (∀ v, dictGet vd "videoId" = some v → pyIsNone v = false →
        dictGet r "video_id" = some v) ∧
      (∀ v, dictGet vd "title" = some v → pyIsNone v = false →
        dictGet r "title" = some v) ∧
      (∀ v, dictGet vd "shortDescription" = some v → pyIsNone v = false →
        dictGet r "description" = some v) ∧
      (∀ v, dictGet vd "author" = some v → pyIsNone v = false →
        dictGet r "author" = some v) ∧
      (∀ v, dictGet vd "channelId" = some v → pyIsNone v = false →
        dictGet r "channel_id" = some v) ∧
      (∀ v, dictGet vd "keywords" = some v → pyIsNone v = false →
        dictGet r "keywords" = some v) ∧
      (∀ v, dictGet mf "uploadDate" = some v → pyIsNone v = false →
        dictGet r "upload_date" = some v) ∧
      (∀ v, dictGet mf "category" = some v → pyIsNone v = false →
        dictGet r "category" = some v) := by
  refine ⟨buildCore vd mf, build_dict_of_thumbnail_none vd mf hth,
    ?_, ?_, ?_, ?_, ?_, ?_, ?_, ?_, ?_, ?_, ?_, ?_⟩
  · intro s n hv hn
    rw [buildCore, foldl_mfStep_get_ne mf "length_seconds" microformat_fields _ (by decide),
      show video_fields =
        [("video_id", "videoId"), ("title", "title"), ("description", "shortDescription"),
         ("author", "author"), ("channel_id", "channelId")] ++
        ("length_seconds", "lengthSeconds") ::
        [("view_count", "viewCount"), ("keywords", "keywords"), ("thumbnail", "thumbnail")]
        from rfl,
      foldl_buildStep_get_split vd "length_seconds" "lengthSeconds" _ _ _ (PyVal.str s)
        (by decide) hv rfl]
    simp [coerceNum, hn]
  · intro s hv hn
    rw [buildCore, foldl_mfStep_get_ne mf "length_seconds" microformat_fields _ (by decide),
      show video_fields =
        [("video_id", "videoId"), ("title", "title"), ("description", "shortDescription"),
         ("author", "author"), ("channel_id", "channelId")] ++
        ("length_seconds", "lengthSeconds") ::
        [("view_count", "viewCount"), ("keywords", "keywords"), ("thumbnail", "thumbnail")]
        from rfl,
      foldl_buildStep_get_split vd "length_seconds" "lengthSeconds" _ _ _ (PyVal.str s)
        (by decide) hv rfl]
    simp [coerceNum, hn]
  · intro s n hv hn
    rw [buildCore, foldl_mfStep_get_ne mf "view_count" microformat_fields _ (by decide),
      show video_fields =
        [("video_id", "videoId"), ("title", "title"), ("description", "shortDescription"),
         ("author", "author"), ("channel_id", "channelId"),
         ("length_seconds", "lengthSeconds")] ++
        ("view_count", "viewCount") :: [("keywords", "keywords"), ("thumbnail", "thumbnail")]
        from rfl,
      foldl_buildStep_get_split vd "view_count" "viewCount" _ _ _ (PyVal.str s)
        (by decide) hv rfl]
    simp [coerceNum, hn]
  · intro s hv hn
    rw [buildCore, foldl_mfStep_get_ne mf "view_count" microformat_fields _ (by decide),
      show video_fields =
        [("video_id", "videoId"), ("title", "title"), ("description", "shortDescription"),
         ("author", "author"), ("channel_id", "channelId"),
         ("length_seconds", "lengthSeconds")] ++
        ("view_count", "viewCount") :: [("keywords", "keywords"), ("thumbnail", "thumbnail")]
        from rfl,
      foldl_buildStep_get_split vd "view_count" "viewCount" _ _ _ (PyVal.str s)
        (by decide) hv rfl]
    simp [coerceNum, hn]
  · intro v hv hvn
    rw [buildCore, foldl_mfStep_get_ne mf "video_id" microformat_fields _ (by decide),
      show video_fields = ([] : List (String × String)) ++ ("video_id", "videoId") ::
        [("title", "title"), ("description", "shortDescription"), ("author", "author"),
         ("channel_id", "channelId"), ("length_seconds", "lengthSeconds"),
         ("view_count", "viewCount"), ("keywords", "keywords"), ("thumbnail", "thumbnail")]
        from rfl,
      foldl_buildStep_get_split vd "video_id" "videoId" _ _ _ v (by decide) hv hvn]
    simp
  · intro v hv hvn
    rw [buildCore, foldl_mfStep_get_ne mf "title" microformat_fields _ (by decide),
      show video_fields = [("video_id", "videoId")] ++ ("title", "title") ::
        [("description", "shortDescription"), ("author", "author"),
         ("channel_id", "channelId"), ("length_seconds", "lengthSeconds"),
         ("view_count", "viewCount"), ("keywords", "keywords"), ("thumbnail", "thumbnail")]
        from rfl,
      foldl_buildStep_get_split vd "title" "title" _ _ _ v (by decide) hv hvn]
    simp
  · intro v hv hvn
    rw [buildCore, foldl_mfStep_get_ne mf "description" microformat_fields _ (by decide),
      show video_fields = [("video_id", "videoId"), ("title", "title")] ++
        ("description", "shortDescription") ::
        [("author", "author"), ("channel_id", "channelId"),
         ("length_seconds", "lengthSeconds"), ("view_count", "viewCount"),
         ("keywords", "keywords"), ("thumbnail", "thumbnail")]
        from rfl,
      foldl_buildStep_get_split vd "description" "shortDescription" _ _ _ v
        (by decide) hv hvn]
    simp
  · intro v hv hvn
    rw [buildCore, foldl_mfStep_get_ne mf "author" microformat_fields _ (by decide),
      show video_fields =
        [("video_id", "videoId"), ("title", "title"),
         ("description", "shortDescription")] ++ ("author", "author") ::
        [("channel_id", "channelId"), ("length_seconds", "lengthSeconds"),
         ("view_count", "viewCount"), ("keywords", "keywords"), ("thumbnail", "thumbnail")]
        from rfl,
      foldl_buildStep_get_split vd "author" "author" _ _ _ v (by decide) hv hvn]
    simp
  · intro v hv hvn
    rw [buildCore, foldl_mfStep_get_ne mf "channel_id" microformat_fields _ (by decide),
      show video_fields =
        [("video_id", "videoId"), ("title", "title"), ("description", "shortDescription"),
         ("author", "author")] ++ ("channel_id", "channelId") ::
        [("length_seconds", "lengthSeconds"), ("view_count", "viewCount"),
         ("keywords", "keywords"), ("thumbnail", "thumbnail")]
        from rfl,
      foldl_buildStep_get_split vd "channel_id" "channelId" _ _ _ v (by decide) hv hvn]
    simp
  · intro v hv hvn
    rw [buildCore, foldl_mfStep_get_ne mf "keywords" microformat_fields _ (by decide),
      show video_fields =
        [("video_id", "videoId"), ("title", "title"), ("description", "shortDescription"),
         ("author", "author"), ("channel_id", "channelId"),
         ("length_seconds", "lengthSeconds"), ("view_count", "viewCount")] ++
        ("keywords", "keywords") :: [("thumbnail", "thumbnail")]
        from rfl,
      foldl_buildStep_get_split vd "keywords" "keywords" _ _ _ v (by decide) hv hvn]
    simp
  · intro v hv hvn
    rw [buildCore,
      show microformat_fields = ([] : List (String × String)) ++
        ("upload_date", "uploadDate") :: [("category", "category")] from rfl,
      foldl_mfStep_get_split mf "upload_date" "uploadDate" _ _ _ v (by decide) hv hvn]
  · intro v hv hvn
    rw [buildCore,
      show microformat_fields = [("upload_date", "uploadDate")] ++
        ("category", "category") :: ([] : List (String × String)) from rfl,
      foldl_mfStep_get_split mf "category" "category" _ _ _ v (by decide) hv hvn]

/-- C7 witness: `lengthSeconds` `"42"` is coerced, `viewCount` `"bad!"` is
kept as the original string with the build still succeeding, `title` is
copied verbatim. -/
theorem builder_numeric_coercion_witness :
    ∃ r, build_video_info_dict
        [("videoId", PyVal.str "abc12345678"), ("title", PyVal.str "T"),
         ("lengthSeconds", PyVal.str "42"), ("viewCount", PyVal.str "bad!")]
        [("uploadDate", PyVal.str "2020-01-01")] = some r ∧
      dictGet r "length_seconds" = some (PyVal.int 42) ∧
      dictGet r "view_count" = some (PyVal.str "bad!") ∧
      dictGet r "title" = some (PyVal.str "T") := by
  obtain ⟨r, hr, hls1, _, _, hvc2, _, htitle, _⟩ :=
    builder_numeric_coercion
      [("videoId", PyVal.str "abc12345678"), ("title", PyVal.str "T"),
       ("lengthSeconds", PyVal.str "42"), ("viewCount", PyVal.str "bad!")]
      [("uploadDate", PyVal.str "2020-01-01")] rfl
  exact ⟨r, hr, hls1 "42" 42 rfl rfl, hvc2 "bad!" rfl rfl, htitle (PyVal.str "T") rfl rfl⟩

/-! ## C8 -/

/-- C8: whenever the raw thumbnail structure is a mapping containing a
non-empty `thumbnails` list (whose last entry carries a `url`), the built
record's `thumbnail_url` equals the url of the last, highest-index, entry of
that list, and the raw `thumbnail` key is absent from the built record. -/
theorem builder_thumbnail_selection (vd mf : PyDict) (td : PyDict) (l : List PyVal)
    (e : PyDict) (u : PyVal)
    (h1 : dictGet vd "thumbnail" = some (PyVal.dict td))
    (h2 : dictGet td "thumbnails" = some (PyVal.list l))
    (h3 : l.getLast? = some (PyVal.dict e))
    (h4 : dictGet e "url" = some u) :
    ∃ r, build_video_info_dict vd mf = some r ∧
      dictGet r "thumbnail_url" = some u ∧
      dictGet r "thumbnail" = Option.none := by
  have hcore : dictGet (buildCore vd mf) "thumbnail" = some (PyVal.dict td) := by
    rw [buildCore, foldl_mfStep_get_ne mf "thumbnail" microformat_fields _ (by decide),
      show video_fields =
        [("video_id", "videoId"), ("title", "title"), ("description", "shortDescription"),
         ("author", "author"), ("channel_id", "channelId"),
         ("length_seconds", "lengthSeconds"), ("view_count", "viewCount"),
         ("keywords", "keywords")] ++
        ("thumbnail", "thumbnail") :: ([] : List (String × String)) from rfl,
      foldl_buildStep_get_split vd "thumbnail" "thumbnail" _ _ _ (PyVal.dict td)
        (by decide) h1 rfl]
    simp
  have hemp : l.isEmpty = false := by
    cases hx : l.isEmpty
    · rfl
    · rw [List.isEmpty_iff.mp hx] at h3
      cases h3
  refine ⟨dictDel (dictSet (buildCore vd mf) "thumbnail_url" u) "thumbnail", ?_, ?_, ?_⟩
  · rw [build_video_info_dict,
      thumbStep_select (buildCore vd mf) td l e u hcore h2 hemp h3 h4]
  · rw [dictGet_dictDel_ne _ _ _ (by decide), dictGet_dictSet_self]
  · rw [dictGet_dictDel_self]

/-- C8 witness: the spec's three-URL thumbnail list selects the third URL and
drops the raw key. -/
theorem builder_thumbnail_selection_witness :
    ∃ r, build_video_info_dict
        [("videoId", PyVal.str "abc12345678"),
         ("thumbnail", PyVal.dict [("thumbnails", PyVal.list
            [PyVal.dict [("url", PyVal.str "u1")], PyVal.dict [("url", PyVal.str "u2")],
             PyVal.dict [("url", PyVal.str "u3")]])])]
        [] = some r ∧
      dictGet r "thumbnail_url" = some (PyVal.str "u3") ∧
      dictGet r "thumbnail" = Option.none :=
  builder_thumbnail_selection _ _ _ _ _ _ rfl rfl rfl rfl

/-! ## C10 -/

/-- C10: `get_video_info` in the synchronous client returns a typed record
only when all eleven `YouTubeVideoBuilder` fields were obtained — on the full
fixture page it returns the complete record.  But when a mapped field is
absent (here: everything except `videoId`), `YouTubeVideoBuilder(**result)`
raises `TypeError`, and because the module's `YouTubeError` does not derive
`BaseException` the `except YouTubeError:` clause itself raises `TypeError`
during handler matching, so the caller receives an unclassified `TypeError`
rather than the claimed returned structured error of kind UNEXPECTED_ERROR. -/
theorem get_video_info_record_completeness :
    get_video_info_sync 3 1 (fun _ => Attempt.resp ⟨200, fullVideoPage⟩) "abc12345678" =
      CallOutcome.ok fullVideoRecord ∧
    get_video_info_sync 3 1 (fun _ => Attempt.resp ⟨200, partialVideoPage⟩) "abc12345678" =
      CallOutcome.raisedTypeError catchNonExceptionMsg ∧
    CallOutcome.raisedTypeError (α := PyDict) catchNonExceptionMsg ≠
      CallOutcome.returnedErr
        { error_type := "UNEXPECTED_ERROR"
          message := "An unexpected error occurred"
          details := some "TypeError: YouTubeVideoBuilder argument mismatch" } :=
  ⟨rfl, rfl, fun h => CallOutcome.noConfusion h⟩

end YtApi
